import Mathlib

/-!
Shallow embedding of `src/datasette/sqlite3_connector.py` (class
`SQLite3_connector`) and the parts of its environment the verification
needs.  Python exceptions are modelled with `Except Err`; the mutable
fields of the connector object (`self.conn`, with the scoped time-limit
guard installed on it) are threaded explicitly as state.  The SQLite
engine itself is modelled by a `DB` structure of query responses.
-/

namespace Datasette

/-- Exception kinds distinguished by the source.  `opError` stands for
`sqlite3.OperationalError`; `datasetteError` for `utils.DatasetteError`
(modelled from the spec as the single distinct domain error kind, section 7:
it is not an engine exception class); `keyError` for a Python `KeyError`
raised by indexing a dict with a missing key. -/
inductive Err where
  | opError (msg : String)
  | datasetteError (msg : String)
  | keyError (key : String)
  | otherError (msg : String)
deriving DecidableEq, Repr

/-- SQLite values flowing through rows and parameters. -/
inductive Value where
  | int (i : Int)
  | str (s : String)
  | null
deriving DecidableEq, Repr

/-- A result row as fetched by a cursor: a tuple of values. -/
abbrev Tuple := List Value

/-- An input row for foreign-key resolution: `sqlite3.Row` read by column
name (`row[fk['column']]`). -/
abbrev NamedRow := List (String × Value)

/-- One row of `PRAGMA table_info(...)`: the source reads `row[1]` (the
column name) and `row[-1]` (the primary-key ordinal, 0 when the column is
not part of the primary key); the other fields are never consulted. -/
structure TableInfoRow where
  name : String
  pk : Nat
deriving DecidableEq, Repr

/-- One outgoing foreign key as produced by `get_all_foreign_keys`:
the dict with keys `column`, `other_table`, `other_column`. -/
structure FKRef where
  column : String
  other_table : String
  other_column : String
deriving DecidableEq, Repr

instance {ε α : Type} [DecidableEq ε] [DecidableEq α] : DecidableEq (Except ε α) := fun x y =>
  match x, y with
  | .ok a, .ok b =>
      if h : a = b then .isTrue (by rw [h])
      else .isFalse (by intro hc; cases hc; exact h rfl)
  | .ok _, .error _ => .isFalse (by intro hc; cases hc)
  | .error _, .ok _ => .isFalse (by intro hc; cases hc)
  | .error e, .error f =>
      if h : e = f then .isTrue (by rw [h])
      else .isFalse (by intro hc; cases hc; exact h rfl)

/-- One `sqlite_master` table entry together with the engine's responses
to the per-table queries `inspect` issues against it. -/
structure CatalogTable where
  name : String
  /-- outcome of `select count(*) from <table>`: `.error` when the engine
  raises `sqlite3.OperationalError` (e.g. an FTS virtual table). -/
  countResult : Except String Nat
  /-- rows of `PRAGMA table_info(<table>)`, in declaration order. -/
  tableInfo : List TableInfoRow
deriving DecidableEq, Repr

/-- The state of one open connection.  `id` identifies the connection
object; `guard` is the scoped time limit (ms) currently installed on it
by `sqlite_timelimit`, `none` when no guard is installed. -/
structure ConnState where
  id : Nat
  guard : Option Nat
deriving DecidableEq, Repr

/-- The SQLite engine and database file, as the responses it gives to the
queries the connector issues. -/
structure DB where
  /-- `select * from sqlite_master where type="table"` plus the per-table
  query outcomes. -/
  tables : List CatalogTable
  /-- `select name from sqlite_master where type = "view"`. -/
  views : List String
  /-- names from `select name from sqlite_master where rootpage = 0 and sql
  like '%VIRTUAL TABLE%USING FTS%'`: the detected FTS virtual tables. -/
  fts : List String
  /-- result of `utils.detect_spatialite(conn)`. -/
  spatialite : Bool
  /-- Modelled from the spec: `utils.get_all_foreign_keys` (not under src/)
  gathers, in one pass, the outgoing foreign keys of every table
  (section 4.2 step 7), so it is a total map from table name to list. -/
  foreignKeys : String → List FKRef
  /-- outcome of `conn.execute("SELECT load_extension('<ext>')")`. -/
  loadExtension : String → Except String Unit
  /-- full result set of an arbitrary statement with bound parameters, as
  `cursor.fetchall()` would produce it; `.error` when the engine raises
  `sqlite3.OperationalError`. -/
  queryResult : String → List Value → Except String (List Tuple)
  /-- wall-clock running time (ms) of the statement: the scoped guard
  aborts the statement when this exceeds the installed limit. -/
  queryTimeMs : String → List Value → Nat
  /-- `cursor.description` column names for the statement. -/
  queryDescription : String → List String

/-- The connector object: constructor arguments plus the one mutable field
`self.conn` and a source of fresh connection ids for `sqlite3.connect`. -/
structure Connector where
  maxReturnedRows : Nat
  sqliteFunctions : List String
  sqliteExtensions : List String
  hasPluginManager : Bool
  conn : Option ConnState
  nextConnId : Nat
deriving DecidableEq, Repr

/-- `managed_errors` decorator: re-raises `sqlite3.OperationalError` as
`DatasetteError(str(e))`; every other outcome passes through. -/
def managed_errors {α : Type} (r : Except Err α) : Except Err α :=
  match r with
  | .error (.opError m) => .error (.datasetteError m)
  | r => r

/-- Observable outcome of `prepare_connection`.  `loaded` lists the
extensions whose load-extension statement succeeded, in order;
`hookInvoked` records whether the plugin hook ran; `self` is the connector
state after the call (`self.conn = conn` is the last line of the method,
reached only when nothing raised).  The row/text factories (decoding
policy) and `create_function` registrations act only on the engine side;
function registration happens before extension loading and never raises,
recorded in `registered`. -/
structure PrepResult where
  result : Except Err Unit
  registered : List String
  loaded : List String
  hookInvoked : Bool
  self : Connector
deriving Repr

/-- Loads the configured extensions in order; stops at the first failure
with the engine's error, otherwise returns those loaded. -/
def loadExtensions (db : DB) : List String → Except Err (List String)
  | [] => .ok []
  | e :: rest =>
      match db.loadExtension e with
      | .error m => .error (.opError m)
      | .ok _ =>
          match loadExtensions db rest with
          | .error err => .error err
          | .ok l => .ok (e :: l)

/-- Extensions successfully loaded before the first failure (the prefix of
the list the loop got through). -/
def loadedUntilError (db : DB) : List String → List String
  | [] => []
  | e :: rest =>
      match db.loadExtension e with
      | .error _ => []
      | .ok _ => e :: loadedUntilError db rest

/-- `prepare_connection(self, conn)`: set row/text factories, register the
custom scalar functions, load extensions (first failure raises and aborts
the method), invoke the plugin hook, and finally assign `self.conn = conn`. -/
def prepare_connection (c : Connector) (db : DB) (conn : ConnState) : PrepResult :=
  match loadExtensions db c.sqliteExtensions with
  | .error err =>
      { result := .error err
        registered := c.sqliteFunctions
        loaded := loadedUntilError db c.sqliteExtensions
        hookInvoked := false
        self := c }
  | .ok l =>
      { result := .ok ()
        registered := c.sqliteFunctions
        loaded := l
        hookInvoked := c.hasPluginManager
        self := { c with conn := some conn } }

/-- The fixed list of Spatialite internal table names the source appends to
`hidden_tables` when `detect_spatialite(conn)` is true. -/
def spatialiteTableNames : List String :=
  ["ElementaryGeometries", "SpatialIndex", "geometry_columns",
   "spatial_ref_sys", "spatialite_history", "sql_statements_log",
   "sqlite_sequence", "views_geometry_columns", "virts_geometry_columns"]

/-- The `hidden_tables` list assembled by `inspect`: detected FTS virtual
table names, plus the Spatialite internals when the extension is detected. -/
def hiddenTables (db : DB) : List String :=
  db.fts ++ (if db.spatialite then spatialiteTableNames else [])

/-- Python `s.startswith(p)` as a character-list prefix test (executable
in the kernel, unlike `String.startsWith`). -/
def startsWith (s p : String) : Bool := p.data.isPrefixOf s.data

/-- The hidden flag: `t == hidden_table or t.startswith(hidden_table)` for
some entry of `hidden_tables`. -/
def isHidden (db : DB) (t : String) : Bool :=
  (hiddenTables db).any (fun h => t == h || startsWith t h)

/-- Ordering used to sort `table_info_rows` by `row[-1]`, the primary-key
ordinal (Python `list.sort` is a stable ascending sort: `insertionSort`
with this relation matches it). -/
def pkLE (a b : TableInfoRow) : Prop := a.pk ≤ b.pk

instance : DecidableRel pkLE := fun a b => Nat.decLe a.pk b.pk

instance : IsTotal TableInfoRow pkLE := ⟨fun a b => Nat.le_total a.pk b.pk⟩

instance : IsTrans TableInfoRow pkLE := ⟨fun _ _ _ => Nat.le_trans⟩

/-- The filtered-and-sorted `table_info_rows`: rows whose last field
(`pk`) is truthy, sorted by that field ascending. -/
def pkRowsSorted (tinfo : List TableInfoRow) : List TableInfoRow :=
  List.insertionSort pkLE (tinfo.filter (fun r => r.pk != 0))

/-- The `label_column` heuristic of `inspect` (lines 74-80): when the table
has exactly two columns and one of them is `id`, the other column's name. -/
def labelColumn (column_names : List String) : Option String :=
  if column_names ≠ [] ∧ column_names.length = 2 ∧ "id" ∈ column_names then
    (column_names.filter (fun c => c ≠ "id")).head?
  else
    none

/-- The per-table metadata dict assembled by `inspect`. -/
structure TableMetadata where
  name : String
  columns : List String
  primary_keys : List String
  count : Nat
  label_column : Option String
  hidden : Bool
  /-- the `foreign_keys['outgoing']` list attached from
  `get_all_foreign_keys`. -/
  foreign_keys : List FKRef
deriving DecidableEq, Repr

/-- Metadata for one catalog table, combining count (0 on failure),
primary keys, columns, label column, foreign keys and the hidden flag. -/
def tableMeta (db : DB) (t : CatalogTable) : TableMetadata :=
  { name := t.name
    columns := t.tableInfo.map (fun r => r.name)
    primary_keys := (pkRowsSorted t.tableInfo).map (fun r => r.name)
    count := match t.countResult with | .ok n => n | .error _ => 0
    label_column := labelColumn (t.tableInfo.map (fun r => r.name))
    hidden := isHidden db t.name
    foreign_keys := db.foreignKeys t.name }

/-- `inspect` before the `managed_errors` wrapper.  It opens a fresh
immutable-mode connection, runs `prepare_connection` on it (which assigns
it to `self.conn`), then derives the table metadata and view list.  Table
names in `sqlite_master` are unique, so the insertion-ordered Python dict
is modelled as the association list in catalog order. -/
def inspect_raw (c : Connector) (db : DB) :
    Connector × Except Err (List (String × TableMetadata) × List String) :=
  let conn : ConnState := { id := c.nextConnId, guard := none }
  let c₁ : Connector := { c with nextConnId := c.nextConnId + 1 }
  let prep := prepare_connection c₁ db conn
  match prep.result with
  | .error err => (prep.self, .error err)
  | .ok _ =>
      (prep.self, .ok (db.tables.map (fun t => (t.name, tableMeta db t)), db.views))

/-- `inspect()` as exported: the body under the `managed_errors` decorator. -/
def inspect (c : Connector) (db : DB) :
    Connector × Except Err (List (String × TableMetadata) × List String) :=
  let (c₁, r) := inspect_raw c db
  (c₁, managed_errors r)

/-- The asymmetric return shape of `execute`: bare rows when
`truncate=False`, a `(rows, truncated, description)` triple when
`truncate=True`. -/
inductive ExecResult where
  | plain (rows : List Tuple)
  | truncRows (rows : List Tuple) (wasTruncated : Bool) (description : List String)
deriving DecidableEq, Repr

/-- The rows carried by either shape of result. -/
def ExecResult.rows : ExecResult → List Tuple
  | .plain r => r
  | .truncRows r _ _ => r

/-- Running one statement on a connection carrying guard state: the scoped
guard (`sqlite_timelimit`, modelled from the spec: installed limit aborts a
statement whose wall-clock time exceeds it, surfacing as an
`sqlite3.OperationalError`), then the engine's own outcome. -/
def runStatement (db : DB) (guard : Option Nat) (sql : String) (params : List Value) :
    Except Err (List Tuple) :=
  match guard with
  | some lim =>
      if db.queryTimeMs sql params > lim then .error (.opError "interrupted")
      else
        match db.queryResult sql params with
        | .error m => .error (.opError m)
        | .ok rows => .ok rows
  | none =>
      match db.queryResult sql params with
      | .error m => .error (.opError m)
      | .ok rows => .ok rows

/-- `execute` before the `managed_errors` wrapper.  Modelled from the spec
for the part living in `utils.sqlite_timelimit` (not under src/): the
`with sqlite_timelimit(self.conn, time_limit_ms)` block installs the guard
on `self.conn` before the statement and removes it on every exit path,
normal or raising (section 4.3 / 5).  The body's `try/except` prints a
diagnostic and re-raises unchanged, so errors pass through. -/
def execute_raw (c : Connector) (db : DB) (sql : String) (params : List Value)
    (truncate : Bool) (timeLimitMs : Nat) : Connector × Except Err ExecResult :=
  match c.conn with
  | none => (c, .error (.otherError "AttributeError: conn is None"))
  | some cs =>
      let csIn : ConnState := { cs with guard := some timeLimitMs }
      let fetched : Except Err (List Tuple × Bool) :=
        match runStatement db csIn.guard sql params with
        | .error e => .error e
        | .ok allRows =>
            if c.maxReturnedRows != 0 && truncate then
              let batch := allRows.take (c.maxReturnedRows + 1)
              .ok (batch.take c.maxReturnedRows,
                   decide (c.maxReturnedRows < batch.length))
            else
              .ok (allRows, false)
      let body : Except Err ExecResult :=
        match fetched with
        | .error e => .error e
        | .ok (rows, wasTruncated) =>
            if truncate then .ok (.truncRows rows wasTruncated (db.queryDescription sql))
            else .ok (.plain rows)
      let csOut : ConnState := { csIn with guard := none }
      ({ c with conn := some csOut }, body)

/-- `execute(sql, params, truncate, time_limit_ms)` as exported: the body
under the `managed_errors` decorator. -/
def execute (c : Connector) (db : DB) (sql : String) (params : List Value)
    (truncate : Bool) (timeLimitMs : Nat) : Connector × Except Err ExecResult :=
  let (c₁, r) := execute_raw c db sql params truncate timeLimitMs
  (c₁, managed_errors r)

/-- Python dict assignment `d[k] = v` on an insertion-ordered dict:
overwrite in place when the key exists, append otherwise. -/
def dictInsert {α β : Type} [DecidableEq α] (k : α) (v : β) :
    List (α × β) → List (α × β)
  | [] => [(k, v)]
  | (k₀, v₀) :: rest =>
      if k = k₀ then (k, v) :: rest else (k₀, v₀) :: dictInsert k v rest

/-- Modelled from the spec: `utils.escape_sqlite` (not under src/) is not
described by the spec beyond rendering a table name usable in SQL text;
modelled as the name itself. -/
def escape_sqlite (s : String) : String := s

/-- The batched label-lookup statement built by
`get_foreign_columns_and_rows` with `n` placeholders. -/
def fkLookupSql (other_column label_column other_table : String) (n : Nat) : String :=
  "select \"" ++ other_column ++ "\", \"" ++ label_column ++ "\" from " ++
    escape_sqlite other_table ++ " where \"" ++ other_column ++ "\" in (" ++
    String.intercalate ", " (List.replicate n "?") ++ ")"

/-- `for id, value in results`: each fetched row must be a pair. -/
def unpackPairs : List Tuple → Except Err (List (Value × Value))
  | [] => .ok []
  | [i, v] :: rest =>
      match unpackPairs rest with
      | .error e => .error e
      | .ok l => .ok ((i, v) :: l)
  | _ :: _ => .error (.otherError "ValueError: unpack")

/-- The `fks` map: local column name to referenced table name. -/
abbrev FksMap := List (String × String)

/-- The `labeled_fks` map: `(column, id)` to `(other_table, label)`. -/
abbrev LabeledMap := List ((String × Value) × (String × Value))

/-- The per-foreign-key loop of `get_foreign_columns_and_rows`.  For each
key: when the referenced table has no truthy `label_column`, record the raw
mapping; otherwise collect the distinct ids of that column from the input
rows, run the batched lookup through `self.execute`, catching only
`sqlite3.OperationalError` (`pass`), and on success record the labeled
pairs. -/
def processFKs (db : DB) (tinfo : List (String × TableMetadata)) (rows : List NamedRow)
    (c : Connector) (fkList : List FKRef) (fks : FksMap) (labeled : LabeledMap) :
    Connector × Except Err (FksMap × LabeledMap) :=
  match fkList with
  | [] => (c, .ok (fks, labeled))
  | fk :: rest =>
      let labelOpt : Option String := (tinfo.lookup fk.other_table).bind (fun md => md.label_column)
      match labelOpt with
      | none =>
          processFKs db tinfo rows c rest (dictInsert fk.column fk.other_table fks) labeled
      | some lc =>
          if lc = "" then
            -- `if not label_column` is also taken for a falsy empty string
            processFKs db tinfo rows c rest (dictInsert fk.column fk.other_table fks) labeled
          else
            match rows.mapM (fun row => row.lookup fk.column) with
            | none => (c, .error (.keyError fk.column))
            | some ids =>
                let idSet := ids.eraseDups
                let sql := fkLookupSql fk.other_column lc fk.other_table idSet.length
                let step := execute c db sql idSet false 1000
                match step.2 with
                | .error (.opError _) =>
                    -- `except sqlite3.OperationalError: pass`
                    processFKs db tinfo rows step.1 rest fks labeled
                | .error e => (step.1, .error e)
                | .ok r =>
                    match unpackPairs r.rows with
                    | .error e => (step.1, .error e)
                    | .ok pairs =>
                        processFKs db tinfo rows step.1 rest fks
                          (pairs.foldl
                            (fun acc iv =>
                              dictInsert (fk.column, iv.1) (fk.other_table, iv.2) acc)
                            labeled)

/-- `get_foreign_columns_and_rows(table, rows)`: run a fresh `inspect`,
index its table map with the given name (a missing name raises a raw
`KeyError`), then resolve each outgoing foreign key. -/
def get_foreign_columns_and_rows (c : Connector) (db : DB) (table : String)
    (rows : List NamedRow) : Connector × Except Err (FksMap × LabeledMap) :=
  let ins := inspect c db
  match ins.2 with
  | .error e => (ins.1, .error e)
  | .ok (tablesInfo, _) =>
      match tablesInfo.lookup table with
      | none => (ins.1, .error (.keyError table))
      | some md => processFKs db tablesInfo rows ins.1 md.foreign_keys [] []

/-! Concrete fixtures used to evaluate the embedding on explicit inputs. -/

/-- A database whose every engine response is trivial; fixtures override
the fields they need. -/
def dbBase : DB :=
  { tables := []
    views := []
    fts := []
    spatialite := false
    foreignKeys := fun _ => []
    loadExtension := fun _ => .ok ()
    queryResult := fun _ _ => .ok []
    queryTimeMs := fun _ _ => 0
    queryDescription := fun _ => [] }

/-- A connector as constructed with the default arguments
(`max_returned_rows=1000`, no functions, no extensions, no plugin
manager), before any connection exists. -/
def cBase : Connector :=
  { maxReturnedRows := 1000
    sqliteFunctions := []
    sqliteExtensions := []
    hasPluginManager := false
    conn := none
    nextConnId := 0 }

/-- A connector already holding a long-lived connection (id 0). -/
def cExec : Connector := { cBase with conn := some { id := 0, guard := none }, nextConnId := 1 }

/-- Table `t(x)` with one outgoing foreign key `x → u.id`. -/
def tableT : CatalogTable :=
  { name := "t", countResult := .ok 1, tableInfo := [{ name := "x", pk := 0 }] }

/-- Table `u(id, name)`: two columns, one named `id`, so its label column
is `name`. -/
def tableU : CatalogTable :=
  { name := "u", countResult := .ok 1,
    tableInfo := [{ name := "id", pk := 1 }, { name := "name", pk := 0 }] }

/-- Database for foreign-key resolution: `t.x` references `u.id`, and every
statement run through `execute` takes 2000 ms, beyond the default
1000 ms limit, so the batched label lookup hits the time limit. -/
def dbFK : DB :=
  { dbBase with
    tables := [tableT, tableU]
    foreignKeys := fun t =>
      if t = "t" then [{ column := "x", other_table := "u", other_column := "id" }] else []
    queryTimeMs := fun _ _ => 2000 }

/-- Catalog table named `ab`, an ordinary table. -/
def tableAB : CatalogTable :=
  { name := "ab", countResult := .ok 0, tableInfo := [{ name := "c", pk := 0 }] }

/-- Catalog table named `sqlite_sequence2`: the Spatialite internal name
`sqlite_sequence` is a strict prefix of it. -/
def tableSeq2 : CatalogTable :=
  { name := "sqlite_sequence2", countResult := .ok 0, tableInfo := [{ name := "c", pk := 0 }] }

/-- Database with a detected FTS virtual table named `a`, the tables `ab`
and `sqlite_sequence2`, and Spatialite detected. -/
def dbHidden : DB :=
  { dbBase with tables := [tableAB, tableSeq2], fts := ["a"], spatialite := true }

/-- The hidden flag of one table of the inspection result. -/
def hiddenOf (c : Connector) (db : DB) (t : String) : Option Bool :=
  match (inspect c db).2 with
  | .ok (ts, _) => (ts.lookup t).map (fun md => md.hidden)
  | .error _ => none

/-- The hidden-table predicate in the words of the claim: the table's name
equals, or is a prefix of, a detected FTS virtual table name, or — with the
spatial extension detected — the name is one of the fixed internal names. -/
def claimHidden (db : DB) (t : String) : Prop :=
  (∃ f ∈ db.fts, t = f ∨ startsWith f t = true)
  ∨ (db.spatialite = true ∧ t ∈ spatialiteTableNames)

instance (db : DB) (t : String) : Decidable (claimHidden db t) := by
  unfold claimHidden; infer_instance

/-- The hidden-table predicate the code computes, as a proposition: some
entry of `hidden_tables` equals the table's name or is a prefix of it. -/
def codeHidden (db : DB) (t : String) : Prop :=
  ∃ h ∈ hiddenTables db, t = h ∨ startsWith t h = true

/-- Extension-loading fixture: `bad` fails to load, everything else
succeeds. -/
def dbExt : DB :=
  { dbBase with loadExtension := fun e => if e = "bad" then .error "cannot load" else .ok () }

/-- Connector configured with extensions `good`, `bad`, `after`. -/
def cExt : Connector := { cBase with sqliteExtensions := ["good", "bad", "after"] }

/-- Database whose single statement yields 1001 rows. -/
def db1001 : DB := { dbBase with queryResult := fun _ _ => .ok (List.replicate 1001 []) }

/-- Database whose single statement yields 1000 rows. -/
def db1000 : DB := { dbBase with queryResult := fun _ _ => .ok (List.replicate 1000 []) }

/-- Database on which every statement runs for 999999 ms. -/
def dbSlow : DB := { dbBase with queryTimeMs := fun _ _ => 999999 }

/-- Table with a composite primary key declared `(a, b)` in declaration
order where `a` has primary-key ordinal 2 and `b` ordinal 1, plus one
non-key column. -/
def tableComp : CatalogTable :=
  { name := "comp", countResult := .ok 0,
    tableInfo := [{ name := "a", pk := 2 }, { name := "b", pk := 1 }, { name := "z", pk := 0 }] }

/-- Database holding only the composite-key table. -/
def dbComp : DB := { dbBase with tables := [tableComp] }

/-- A virtual table whose `count(*)` raises `sqlite3.OperationalError`. -/
def tableBadCount : CatalogTable :=
  { name := "vft", countResult := .error "no such module", tableInfo := [{ name := "c", pk := 0 }] }

/-- Database holding the failing-count table and an ordinary one. -/
def dbBadCount : DB := { dbBase with tables := [tableBadCount, tableAB] }

/-! Helper lemmas shared by the claim theorems. -/

/-- When all configured extensions load, `inspect` succeeds: it bumps the
connection counter, leaves `self.conn` pointing at the fresh snapshot
connection, and returns the metadata of every catalog table. -/
theorem inspect_eq_of_prep_ok (c : Connector) (db : DB) (l : List String)
    (h : loadExtensions db c.sqliteExtensions = .ok l) :
    inspect c db =
      ({ c with nextConnId := c.nextConnId + 1,
                conn := some { id := c.nextConnId, guard := none } },
       .ok (db.tables.map (fun t => (t.name, tableMeta db t)), db.views)) := by
  simp [inspect, inspect_raw, prepare_connection, managed_errors, h]

/-- Looking a name up in the inspection map fails when no catalog table
carries that name. -/
theorem lookup_tableMeta_eq_none (db : DB) (ts : List CatalogTable) (t : String)
    (h : t ∉ ts.map CatalogTable.name) :
    (ts.map (fun ct => (ct.name, tableMeta db ct))).lookup t = none := by
  induction ts with
  | nil => rfl
  | cons hd tl ih =>
      simp only [List.map_cons, List.mem_cons, not_or] at h
      simp [List.lookup, beq_eq_false_iff_ne.mpr h.1, ih h.2]

/-- `loadExtensions` stops at the first failing extension with the
engine's error wrapped as `sqlite3.OperationalError`. -/
theorem loadExtensions_append_error (db : DB) (pre : List String) (e : String)
    (post : List String) (m : String)
    (hpre : ∀ x ∈ pre, db.loadExtension x = .ok ())
    (he : db.loadExtension e = .error m) :
    loadExtensions db (pre ++ e :: post) = .error (.opError m) := by
  induction pre with
  | nil => simp [loadExtensions, he]
  | cons a as ih =>
      have ha := hpre a (by simp)
      have has : ∀ x ∈ as, db.loadExtension x = .ok () := fun x hx => hpre x (by simp [hx])
      simp [loadExtensions, ha, ih has]

/-- Before the first failing extension, exactly the earlier ones loaded. -/
theorem loadedUntilError_append (db : DB) (pre : List String) (e : String)
    (post : List String) (m : String)
    (hpre : ∀ x ∈ pre, db.loadExtension x = .ok ())
    (he : db.loadExtension e = .error m) :
    loadedUntilError db (pre ++ e :: post) = pre := by
  induction pre with
  | nil => simp [loadedUntilError, he]
  | cons a as ih =>
      have ha := hpre a (by simp)
      have has : ∀ x ∈ as, db.loadExtension x = .ok () := fun x hx => hpre x (by simp [hx])
      simp [loadedUntilError, ha, ih has]

/-! Claim theorems. -/

/-- C2 counterexample: `inspect` does change the connector's `conn`
field.  Starting from a connector whose long-lived connection is id 0,
after `inspect()` the field holds the freshly opened snapshot connection,
so it differs from its previous value. -/
theorem inspect_conn_changed_cex : (inspect cExec dbBase).1.conn ≠ cExec.conn := by decide

/-- C2 (amended): `inspect()` opens its own fresh snapshot connection but,
through `prepare_connection`'s final `self.conn = conn` assignment,
reassigns the connector's `conn` field to that snapshot connection; after a
successful call `self.conn` is the new connection (with no guard
installed), not the previous long-lived one. -/
theorem inspect_reassigns_conn (c : Connector) (db : DB) (l : List String)
    (h : loadExtensions db c.sqliteExtensions = .ok l) :
    (inspect c db).1.conn = some { id := c.nextConnId, guard := none }
    ∧ ∀ cs, c.conn = some cs → cs.id ≠ c.nextConnId → (inspect c db).1.conn ≠ c.conn := by
  rw [inspect_eq_of_prep_ok c db l h]
  refine ⟨rfl, ?_⟩
  intro cs hcs hne
  rw [hcs]
  intro hEq
  rw [Option.some_inj] at hEq
  exact hne (congrArg ConnState.id hEq).symm

/-- C2 witness: the amended theorem at the concrete connector of the
counterexample. -/
theorem inspect_reassigns_conn_witness :
    (inspect cExec dbBase).1.conn = some { id := 1, guard := none }
    ∧ (inspect cExec dbBase).1.conn ≠ cExec.conn :=
  ⟨(inspect_reassigns_conn cExec dbBase [] rfl).1,
   (inspect_reassigns_conn cExec dbBase [] rfl).2 { id := 0, guard := none } rfl (by decide)⟩

/-- C3 counterexample: on a database with a detected FTS virtual table
named `a` and Spatialite detected, the tables `ab` and `sqlite_sequence2`
are marked hidden, yet neither name equals or is a prefix of an FTS name,
nor is either a member of the fixed internal-name set — refuting the
claimed iff. -/
theorem hidden_claim_cex :
    hiddenOf cBase dbHidden "ab" = some true ∧ ¬ claimHidden dbHidden "ab"
    ∧ hiddenOf cBase dbHidden "sqlite_sequence2" = some true
    ∧ ¬ claimHidden dbHidden "sqlite_sequence2" := by decide

/-- C3 (amended): a table's hidden flag is true iff some entry of the
hidden list — a detected FTS virtual table name, or, when Spatialite is
detected, one of the fixed internal names — equals the table's name or is
a prefix of it (the prefix direction is name-starts-with-entry, the
reverse of the claim's wording). -/
theorem hidden_iff_amended (c : Connector) (db : DB) (l : List String)
    (h : loadExtensions db c.sqliteExtensions = .ok l) :
    ∃ ts vs, (inspect c db).2 = .ok (ts, vs)
      ∧ ∀ t md, (t, md) ∈ ts → (md.hidden = true ↔ codeHidden db t) := by
  rw [inspect_eq_of_prep_ok c db l h]
  refine ⟨_, _, rfl, ?_⟩
  intro t md hmem
  simp only [List.mem_map] at hmem
  obtain ⟨ct, _, hEq⟩ := hmem
  obtain ⟨h1, h2⟩ := Prod.mk.injEq .. ▸ hEq
  subst h1
  subst h2
  simp [tableMeta, isHidden, codeHidden, List.any_eq_true]

/-- C3 witness: the amended theorem at the counterexample database. -/
theorem hidden_iff_amended_witness :
    ∃ ts vs, (inspect cBase dbHidden).2 = .ok (ts, vs)
      ∧ ∀ t md, (t, md) ∈ ts → (md.hidden = true ↔ codeHidden dbHidden t) :=
  hidden_iff_amended cBase dbHidden [] rfl

/-- C4: when an extension fails to load, `prepare_connection` fails with
exactly the engine's load error (an `sqlite3.OperationalError` carrying
the engine message, not caught and not downgraded inside preparation), no
later extension is attempted, the plugin hook is not invoked, and the
connector — in particular `self.conn` — is left untouched: no fallback of
any kind. -/
theorem extension_failure_fatal (c : Connector) (db : DB) (conn : ConnState)
    (pre post : List String) (e m : String)
    (hext : c.sqliteExtensions = pre ++ e :: post)
    (hpre : ∀ x ∈ pre, db.loadExtension x = .ok ())
    (he : db.loadExtension e = .error m) :
    prepare_connection c db conn =
      { result := .error (.opError m)
        registered := c.sqliteFunctions
        loaded := pre
        hookInvoked := false
        self := c } := by
  simp [prepare_connection, hext,
        loadExtensions_append_error db pre e post m hpre he,
        loadedUntilError_append db pre e post m hpre he]

/-- C4 witness: configured extensions `good`, `bad`, `after` where `bad`
fails: preparation fails with the load error, only `good` was loaded, the
hook did not run, the connector is unchanged. -/
theorem extension_failure_fatal_witness :
    prepare_connection cExt dbExt { id := 7, guard := none } =
      { result := .error (.opError "cannot load")
        registered := []
        loaded := ["good"]
        hookInvoked := false
        self := cExt } :=
  extension_failure_fatal cExt dbExt { id := 7, guard := none }
    ["good"] ["after"] "bad" "cannot load" rfl (by decide) (by decide)

/-- C5: with `max_returned_rows = 1000` and `truncate=true`, execute
fetches at most 1001 rows (`fetchmany(max+1)`), returns the first 1000 of
them with `truncated` exactly when more than 1000 came back: a 1001-row
result gives 1000 rows and `truncated = true`, a 1000-row result gives all
1000 rows and `truncated = false`. -/
theorem execute_truncation (c : Connector) (db : DB) (sql : String) (params : List Value)
    (lim : Nat) (cs : ConnState) (rs : List Tuple)
    (hmax : c.maxReturnedRows = 1000) (hconn : c.conn = some cs)
    (htime : db.queryTimeMs sql params ≤ lim)
    (hres : db.queryResult sql params = .ok rs) :
    (execute c db sql params true lim).2 =
      .ok (.truncRows ((rs.take 1001).take 1000)
            (decide (1000 < (rs.take 1001).length)) (db.queryDescription sql))
    ∧ (rs.take 1001).length ≤ 1001
    ∧ (rs.length = 1001 →
        ((rs.take 1001).take 1000).length = 1000
        ∧ decide (1000 < (rs.take 1001).length) = true)
    ∧ (rs.length = 1000 →
        ((rs.take 1001).take 1000) = rs
        ∧ decide (1000 < (rs.take 1001).length) = false) := by
  have hng : ¬ (db.queryTimeMs sql params > lim) := by omega
  refine ⟨?_, ?_, ?_, ?_⟩
  · simp [execute, execute_raw, runStatement, hconn, hres, hmax, hng, managed_errors]
  · simp only [List.length_take]
    exact Nat.min_le_left _ _
  · intro hlen
    simp [List.length_take, hlen]
  · intro hlen
    have h1 : rs.take 1001 = rs := List.take_of_length_le (by omega)
    have h2 : rs.take 1000 = rs := List.take_of_length_le (by omega)
    rw [h1, h2]
    simp [hlen]

/-- C5 witness: a 1001-row query returns 1000 rows with `truncated=true`;
a 1000-row query returns all 1000 rows with `truncated=false`. -/
theorem execute_truncation_witness :
    (execute cExec db1001 "q" [] true 1000).2 =
      .ok (.truncRows (List.replicate 1000 []) true [])
    ∧ (execute cExec db1000 "q" [] true 1000).2 =
      .ok (.truncRows (List.replicate 1000 []) false []) := by
  constructor
  · have h := execute_truncation cExec db1001 "q" [] 1000 { id := 0, guard := none }
      (List.replicate 1001 []) rfl rfl (Nat.zero_le _) rfl
    have hd : db1001.queryDescription "q" = ([] : List String) := rfl
    rw [h.1, hd, List.take_replicate, Nat.min_self, List.take_replicate, List.length_replicate]
    norm_num
  · have h := execute_truncation cExec db1000 "q" [] 1000 { id := 0, guard := none }
      (List.replicate 1000 []) rfl rfl (Nat.zero_le _) rfl
    have hd : db1000.queryDescription "q" = ([] : List String) := rfl
    rw [h.1, hd, List.take_replicate, List.take_replicate, List.length_replicate]
    norm_num

/-- C6: whatever `execute` returns — rows, an execution error, or a
time-limit abort — the connection it leaves in `self.conn` carries no
time-limit guard: the scoped guard installed before the statement is
removed on every exit path. -/
theorem execute_guard_removed (c : Connector) (db : DB) (sql : String)
    (params : List Value) (truncate : Bool) (lim : Nat) (cs : ConnState)
    (hconn : c.conn = some cs) :
    (execute c db sql params truncate lim).1.conn = some { id := cs.id, guard := none } := by
  simp [execute, execute_raw, hconn]

/-- C6 witness: both on a statement aborted by the 10 ms limit and on a
fast successful statement, the connection ends with no guard installed. -/
theorem execute_guard_removed_witness :
    (execute cExec dbSlow "q" [] false 10).1.conn = some { id := 0, guard := none }
    ∧ (execute cExec dbBase "q" [] true 10).1.conn = some { id := 0, guard := none } :=
  ⟨execute_guard_removed cExec dbSlow "q" [] false 10 { id := 0, guard := none } rfl,
   execute_guard_removed cExec dbBase "q" [] true 10 { id := 0, guard := none } rfl⟩

/-- C7: the `primary_keys` of every inspected table are exactly the names
of the `table_info` rows whose primary-key ordinal is non-zero (a
permutation of the flagged rows), listed in ascending ordinal order; on
the composite key declared `(a, b)` with ordinals 2 and 1 they come out
`[b, a]`. -/
theorem primary_keys_sorted (c : Connector) (db : DB) (l : List String)
    (h : loadExtensions db c.sqliteExtensions = .ok l) :
    (∀ ct ∈ db.tables, ∃ ts vs md, (inspect c db).2 = .ok (ts, vs)
      ∧ (ct.name, md) ∈ ts
      ∧ md.primary_keys = (pkRowsSorted ct.tableInfo).map TableInfoRow.name
      ∧ (pkRowsSorted ct.tableInfo).Perm (ct.tableInfo.filter (fun r => r.pk != 0))
      ∧ List.Sorted pkLE (pkRowsSorted ct.tableInfo))
    ∧ (pkRowsSorted tableComp.tableInfo).map TableInfoRow.name = ["b", "a"] := by
  constructor
  · intro ct hct
    rw [inspect_eq_of_prep_ok c db l h]
    refine ⟨_, _, tableMeta db ct, rfl, List.mem_map.mpr ⟨ct, hct, rfl⟩, rfl, ?_, ?_⟩
    · exact List.perm_insertionSort pkLE _
    · exact List.sorted_insertionSort pkLE _
  · decide

/-- C7 witness: the theorem at the database holding only the
composite-key table. -/
theorem primary_keys_sorted_witness :
    (∃ ts vs md, (inspect cBase dbComp).2 = .ok (ts, vs)
      ∧ (tableComp.name, md) ∈ ts
      ∧ md.primary_keys = (pkRowsSorted tableComp.tableInfo).map TableInfoRow.name
      ∧ (pkRowsSorted tableComp.tableInfo).Perm (tableComp.tableInfo.filter (fun r => r.pk != 0))
      ∧ List.Sorted pkLE (pkRowsSorted tableComp.tableInfo))
    ∧ (pkRowsSorted tableComp.tableInfo).map TableInfoRow.name = ["b", "a"] :=
  ⟨(primary_keys_sorted cBase dbComp [] rfl).1 tableComp (by decide),
   (primary_keys_sorted cBase dbComp [] rfl).2⟩

/-- The label-column heuristic on a duplicate-free column list: a value is
present exactly for a two-column table containing `id`, and the value is a
column other than `id`. -/
theorem labelColumn_characterization (cols : List String) (hnd : cols.Nodup) :
    ((labelColumn cols).isSome ↔ cols.length = 2 ∧ "id" ∈ cols)
    ∧ ∀ lc, labelColumn cols = some lc → lc ∈ cols ∧ lc ≠ "id" := by
  by_cases hc : cols ≠ [] ∧ cols.length = 2 ∧ "id" ∈ cols
  · obtain ⟨hne, hlen, hid⟩ := hc
    obtain ⟨a, b, rfl⟩ := List.length_eq_two.mp hlen
    have hab : a ≠ b := by simp at hnd; exact hnd
    unfold labelColumn
    rw [if_pos ⟨hne, hlen, hid⟩]
    rcases List.mem_pair.mp hid with ha | hb
    · subst ha
      have hbne : b ≠ "id" := fun hb => hab hb.symm
      simp [List.filter, hbne]
    · subst hb
      have hane : a ≠ "id" := fun ha => hab ha
      simp [List.filter, hane]
  · unfold labelColumn
    rw [if_neg hc]
    refine ⟨?_, by simp⟩
    simp only [Option.isSome_none, Bool.false_eq_true, false_iff]
    intro ⟨hlen, hid⟩
    exact hc ⟨by intro he; rw [he] at hlen; simp at hlen, hlen, hid⟩

/-- C8: for every inspected table with duplicate-free column names (as
`PRAGMA table_info` yields), `label_column` is present exactly when the
table has precisely two columns one of which is `id`, and then its value
is the other column (a column of the table different from `id`); with a
column count other than two, or without an `id` column, it is absent. -/
theorem label_column_rule (c : Connector) (db : DB) (l : List String)
    (ct : CatalogTable)
    (h : loadExtensions db c.sqliteExtensions = .ok l)
    (hct : ct ∈ db.tables)
    (hnd : (ct.tableInfo.map TableInfoRow.name).Nodup) :
    ∃ ts vs md, (inspect c db).2 = .ok (ts, vs) ∧ (ct.name, md) ∈ ts
      ∧ md.columns = ct.tableInfo.map TableInfoRow.name
      ∧ ((md.label_column).isSome ↔ md.columns.length = 2 ∧ "id" ∈ md.columns)
      ∧ (∀ lc, md.label_column = some lc → lc ∈ md.columns ∧ lc ≠ "id")
      ∧ (md.columns.length ≠ 2 → md.label_column = none)
      ∧ ("id" ∉ md.columns → md.label_column = none) := by
  rw [inspect_eq_of_prep_ok c db l h]
  have main := labelColumn_characterization (ct.tableInfo.map TableInfoRow.name) hnd
  refine ⟨_, _, tableMeta db ct, rfl, List.mem_map.mpr ⟨ct, hct, rfl⟩, rfl,
    main.1, main.2, ?_, ?_⟩
  · intro hlen
    rw [← Option.not_isSome_iff_eq_none]
    intro hs
    exact hlen (main.1.mp hs).1
  · intro hid
    rw [← Option.not_isSome_iff_eq_none]
    intro hs
    exact hid (main.1.mp hs).2

/-- C8 witness: the theorem at the `u(id, name)` table of `dbFK`. -/
theorem label_column_rule_witness :
    ∃ ts vs md, (inspect cBase dbFK).2 = .ok (ts, vs) ∧ (tableU.name, md) ∈ ts
      ∧ md.columns = tableU.tableInfo.map TableInfoRow.name
      ∧ ((md.label_column).isSome ↔ md.columns.length = 2 ∧ "id" ∈ md.columns)
      ∧ (∀ lc, md.label_column = some lc → lc ∈ md.columns ∧ lc ≠ "id")
      ∧ (md.columns.length ≠ 2 → md.label_column = none)
      ∧ ("id" ∉ md.columns → md.label_column = none) :=
  label_column_rule cBase dbFK [] tableU rfl (by decide) (by decide)

/-- C9: a failing `count(*)` never aborts inspection: under successful
preparation, `inspect` succeeds, every catalog table — the failing one
included — has an entry in the returned mapping, a failing count is
recorded as 0, and a successful count is passed through. -/
theorem count_failure_absorbed (c : Connector) (db : DB) (l : List String)
    (h : loadExtensions db c.sqliteExtensions = .ok l) :
    ∃ ts vs, (inspect c db).2 = .ok (ts, vs)
      ∧ ∀ ct ∈ db.tables, ∃ md, (ct.name, md) ∈ ts
          ∧ (∀ m, ct.countResult = .error m → md.count = 0)
          ∧ (∀ n, ct.countResult = .ok n → md.count = n) := by
  rw [inspect_eq_of_prep_ok c db l h]
  refine ⟨_, _, rfl, ?_⟩
  intro ct hct
  refine ⟨tableMeta db ct, List.mem_map.mpr ⟨ct, hct, rfl⟩, ?_, ?_⟩
  · intro m hm
    simp [tableMeta, hm]
  · intro n hn
    simp [tableMeta, hn]

/-- C9 witness: the theorem at the database whose table `vft` rejects
`count(*)`. -/
theorem count_failure_absorbed_witness :
    ∃ ts vs, (inspect cBase dbBadCount).2 = .ok (ts, vs)
      ∧ ∀ ct ∈ dbBadCount.tables, ∃ md, (ct.name, md) ∈ ts
          ∧ (∀ m, ct.countResult = .error m → md.count = 0)
          ∧ (∀ n, ct.countResult = .ok n → md.count = n) :=
  count_failure_absorbed cBase dbBadCount [] rfl

/-- C10: calling `get_foreign_columns_and_rows` with a table name absent
from the freshly inspected schema fails with a raw `KeyError` carrying
that name — not the domain error kind — because `tables_info[table]` is
indexed without an existence check. -/
theorem missing_table_keyerror (c : Connector) (db : DB) (l : List String)
    (table : String) (rows : List NamedRow)
    (h : loadExtensions db c.sqliteExtensions = .ok l)
    (hmiss : table ∉ db.tables.map CatalogTable.name) :
    (get_foreign_columns_and_rows c db table rows).2 = .error (.keyError table) := by
  simp only [get_foreign_columns_and_rows, inspect_eq_of_prep_ok c db l h,
    lookup_tableMeta_eq_none db db.tables table hmiss]

/-- C10 witness: on the empty database, resolving a table named `missing`
fails with `KeyError("missing")`. -/
theorem missing_table_keyerror_witness :
    (get_foreign_columns_and_rows cBase dbBase "missing" []).2
      = .error (.keyError "missing") :=
  missing_table_keyerror cBase dbBase [] "missing" [] rfl (by decide)

/-- C1: the resolver does NOT survive a failing batched lookup.  On table
`t` (one foreign key `x → u.id`, `u` labeled by `name`) with one input
row, a lookup that exceeds the 1000 ms limit raises
`sqlite3.OperationalError` inside `execute`, whose `managed_errors`
decorator re-raises it as `DatasetteError`; the
`except sqlite3.OperationalError` handler in
`get_foreign_columns_and_rows` therefore never matches and the whole
resolution fails instead of skipping that key.  The second conjunct shows
the undecorated statement outcome is precisely the operational time-limit
error the handler was written for. -/
theorem fk_lookup_failure_aborts :
    (get_foreign_columns_and_rows cExec dbFK "t" [[("x", Value.int 5)]]).2
      = .error (.datasetteError "interrupted")
    ∧ (execute_raw (inspect cExec dbFK).1 dbFK (fkLookupSql "id" "name" "u" 1)
        [Value.int 5] false 1000).2 = .error (.opError "interrupted") := by
  decide

end Datasette
